import Mathlib

/-!
Shallow embedding of the wikimedia-scraper repository (src/scrape.py and
src/app.py) and verification of its specification claims.

Remote behaviour is modelled by oracles: a function `Nat → ListResponse`
(respectively `Nat → GenResponse`) gives the decoded body of the k-th
listing call of a run, and `String → FetchOutcome` gives the outcome of a
content fetch by URL.  Python exceptions that escape a function are
modelled by `Except.error ()`: an `Except.error` result means the function
raised and returned nothing (in particular, any locally accumulated list
is lost).  Loops are given explicit fuel; a result of `none` means the
loop was still running after `fuel` iterations.
-/

namespace Scraper

/-- `charsStartWith needle hay`: `needle` is an initial segment of `hay`. -/
def charsStartWith : List Char → List Char → Bool
  | [], _ => true
  | _ :: _, [] => false
  | a :: as, b :: bs => a == b && charsStartWith as bs

/-- `charsContain needle hay`: `needle` occurs contiguously inside `hay`. -/
def charsContain (needle : List Char) : List Char → Bool
  | [] => charsStartWith needle []
  | b :: bs => charsStartWith needle (b :: bs) || charsContain needle bs

/-- Python's `needle in hay` on strings: substring test. -/
def substrOf (needle hay : String) : Bool :=
  charsContain needle.data hay.data

/-- Python's `s.lower()` (character-wise lower-casing). -/
def pyLower (s : String) : String :=
  ⟨s.data.map Char.toLower⟩

/-- `ceilDiv a b = ⌈a / b⌉` on naturals. -/
def ceilDiv (a b : Nat) : Nat := (a + b - 1) / b

/-- Python `s.split(':')[-1]`. -/
def lastColonComponent (s : String) : String :=
  (s.split (fun c => c = ':')).getLastD ""

/-- Python `s.rsplit(".", 1)[0]`: drop the last dot and what follows it
(the whole string when there is no dot). -/
def dropAfterLastDot (s : String) : String :=
  match s.data.reverse.dropWhile (fun c => c ≠ '.') with
  | [] => s
  | _ :: rest => ⟨rest.reverse⟩

/-! ### src/scrape.py: constants -/

def WIKI_API_URL : String := "https://commons.wikimedia.org/w/api.php"

def CATEGORY_NAME : String := "Category:Logos_of_companies"

def IMAGE_DIR : String := "./images"

def USER_AGENT : String :=
  "Mozilla/5.0 (Windows NT 10.0; Win64; x64) AppleWebKit/537.36 (KHTML, like Gecko) Chrome/58.0.3029.110 Safari/537.3"

/-- `MAX_IMAGES = 10000`: number of images to download. -/
def MAX_IMAGES : Nat := 10000

/-- `CMLIMIT = 500`: API page size per listing request. -/
def CMLIMIT : Nat := 500

/-! ### src/scrape.py: `get_images_from_category` -/

/-- One entry of `data["query"]["categorymembers"]`. -/
structure Member where
  title : String
deriving DecidableEq

/-- Decoded body of one listing call in `get_images_from_category`:
`malformed` means `response.json()` raises (body is not JSON); `noQuery`
means valid JSON without a `query` key; `page` carries the member list and
the optional `continue.cmcontinue` token. -/
inductive ListResponse where
  | malformed
  | noQuery
  | page (members : List Member) (cmcontinue : Option String)
deriving DecidableEq

/-- The `while len(images) < MAX_IMAGES` loop of `get_images_from_category`
(line 22-50 of scrape.py), with the hard-coded `MAX_IMAGES` generalised to
`limit`.  State: remaining `fuel`, accumulated `images`, number of listing
calls made so far.  Returns the function result together with the total
number of listing calls; `Except.error ()` models the `response.json()`
exception propagating out of the function. -/
def get_images_loop (limit : Nat) (pages : Nat → ListResponse) :
    Nat → List Member → Nat → Option (Except Unit (List Member) × Nat)
  | 0, images, calls =>
    if images.length < limit then none
    else some (.ok (images.take limit), calls)
  | fuel + 1, images, calls =>
    if images.length < limit then
      match pages calls with
      | .malformed => some (.error (), calls + 1)
      | .noQuery => some (.ok (images.take limit), calls + 1)
      | .page members none => some (.ok ((images ++ members).take limit), calls + 1)
      | .page members (some _) => get_images_loop limit pages fuel (images ++ members) (calls + 1)
    else
      some (.ok (images.take limit), calls)

/-- A run of the listing loop with a given limit, from the empty state. -/
def get_images_run (limit : Nat) (pages : Nat → ListResponse) (fuel : Nat) :
    Option (Except Unit (List Member) × Nat) :=
  get_images_loop limit pages fuel [] 0

/-- `get_images_from_category` of scrape.py: the run with `limit = MAX_IMAGES`. -/
def get_images_from_category (pages : Nat → ListResponse) (fuel : Nat) :
    Option (Except Unit (List Member) × Nat) :=
  get_images_run MAX_IMAGES pages fuel

/-! ### src/scrape.py: `get_image_info`, `filter_images`, `download_image` -/

/-- The fields of `page["imageinfo"][0]` read by `filter_images`:
`width`/`height` read with `.get(..., 0)`, the license read from
`extmetadata.License.value` with default `"Unknown License"`, and the
mandatory `url`. -/
structure ScrapeImageInfo where
  width : Option Nat
  height : Option Nat
  license : Option String
  url : String
deriving DecidableEq

/-- The license half of the predicate at scrape.py line 97:
`"pd" in license_info.lower() or "cc0" in license_info.lower()`. -/
def scrape_license_ok (lic : String) : Bool :=
  substrOf "pd" (pyLower lic) || substrOf "cc0" (pyLower lic)

/-- Outcome of a content fetch (`requests.get` on the image URL followed by
`raise_for_status`): a body, an HTTP error status, or a transport failure. -/
inductive FetchOutcome where
  | success (content : String)
  | httpError (code : Nat)
  | transportError
deriving DecidableEq

/-- Result of `download_image` for one item: the file written, or the
`except requests.exceptions.RequestException` branch taken. -/
inductive DownloadResult where
  | downloaded (fileName : String)
  | failed
deriving DecidableEq

/-- `download_image` of scrape.py: fetch the URL; on success write
`IMAGE_DIR/title.split(':')[-1]`; on an HTTP error status
(`raise_for_status`) or a transport error, the `RequestException` handler
runs and the function returns having downloaded nothing. -/
def download_image (fetch : String → FetchOutcome) (imageUrl imageTitle : String) :
    DownloadResult :=
  match fetch imageUrl with
  | .success _ => .downloaded (IMAGE_DIR ++ "/" ++ lastColonComponent imageTitle)
  | .httpError _ => .failed
  | .transportError => .failed

/-- The per-item retrieval over a list of accepted items `(url, title)`:
`filter_images` calls `download_image` once per accepted item, continuing
regardless of each outcome. -/
def download_all (fetch : String → FetchOutcome) (items : List (String × String)) :
    List DownloadResult :=
  items.map (fun it => download_image fetch it.1 it.2)

/-- `filter_images` of scrape.py.  `info` is the metadata oracle: what
`get_image_info` returns for a title (`none` when no page has `imageinfo`).
Returns the list `(url, title)` of items passed to `download_image`, in
order, together with the number of `get_image_info` metadata calls made. -/
def filter_images (info : String → Option ScrapeImageInfo) :
    List Member → List (String × String) × Nat
  | [] => ([], 0)
  | m :: ms =>
    match info m.title with
    | none =>
      let rest := filter_images info ms
      (rest.1, rest.2 + 1)
    | some i =>
      let w := i.width.getD 0
      let h := i.height.getD 0
      let lic := i.license.getD "Unknown License"
      let rest := filter_images info ms
      if (decide (1024 ≤ w) || decide (1024 ≤ h)) && scrape_license_ok lic then
        ((i.url, m.title) :: rest.1, rest.2 + 1)
      else
        (rest.1, rest.2 + 1)

/-! ### HTTP requests as built by the code (for the timeout claim) -/

/-- The arguments of one `requests.get` call: URL, query parameters,
headers, the `timeout` keyword (in seconds; `none` when the call does not
pass one, in which case the library waits indefinitely), and
`allow_redirects`. -/
structure HttpRequest where
  url : String
  params : List (String × String)
  headers : List (String × String)
  timeoutSeconds : Option Nat
  allowRedirects : Bool
deriving DecidableEq

/-- The listing request of `get_images_from_category` (scrape.py line 23-36). -/
def list_page_request (category : String) (continueTok : Option String) : HttpRequest :=
  { url := WIKI_API_URL
    params :=
      [("action", "query"), ("format", "json"), ("list", "categorymembers"),
       ("cmtitle", category), ("cmtype", "file"), ("cmlimit", toString CMLIMIT)] ++
      (match continueTok with
       | none => []
       | some t => [("cmcontinue", t)])
    headers := [("User-Agent", USER_AGENT)]
    timeoutSeconds := none
    allowRedirects := true }

/-- The metadata request of `get_image_info` (scrape.py line 56-64). -/
def image_info_request (imageTitle : String) : HttpRequest :=
  { url := WIKI_API_URL
    params :=
      [("action", "query"), ("format", "json"), ("titles", imageTitle),
       ("prop", "imageinfo"),
       ("iiprop", "url|size|extmetadata|user|canonicaltitle|mediatype|mime")]
    headers := [("User-Agent", USER_AGENT)]
    timeoutSeconds := none
    allowRedirects := true }

/-- The content request of `download_image` (scrape.py line 75). -/
def download_request (imageUrl : String) : HttpRequest :=
  { url := imageUrl
    params := []
    headers := [("User-Agent", USER_AGENT)]
    timeoutSeconds := none
    allowRedirects := true }

/-! ### src/app.py: `fetch_images_from_category` -/

/-- The two `extmetadata` fields read by app.py: `LicenseShortName.value`
(default `""`) and `ImageDescription.value` (default
`"No description available."`). -/
structure ExtMetadata where
  licenseShortName : Option String
  imageDescription : Option String
deriving DecidableEq

/-- One entry of a page's `imageinfo` list.  `width`/`height` are read
with `.get(..., 0)`; `extmetadata` is read by direct indexing, so its
absence (`none`) raises a `KeyError`. -/
structure ImageInfoEntry where
  url : String
  width : Option Nat
  height : Option Nat
  extmetadata : Option ExtMetadata
deriving DecidableEq

/-- One entry of `data["query"]["pages"]`: a title and its (possibly
empty) `imageinfo` list. -/
structure GenPage where
  title : String
  imageinfo : List ImageInfoEntry
deriving DecidableEq

/-- One record appended to `images` by `fetch_images_from_category`. -/
structure AcceptedImage where
  title : String
  url : String
  license : String
  description : String
deriving DecidableEq

/-- Decoded body of one generator-listing call in
`fetch_images_from_category`: `malformed` means `response.json()` raises;
`noQuery` is valid JSON without a `query` key (the pagination check still
runs); `pages` carries the page records and the optional
`continue.gcmcontinue` token. -/
inductive GenResponse where
  | malformed
  | noQuery (continueTok : Option String)
  | pages (ps : List GenPage) (continueTok : Option String)
deriving DecidableEq

/-- The license half of the predicate at app.py line 47:
`"public domain" in license_short_name.lower() or "cc0" in license_short_name.lower()`. -/
def app_license_ok (lic : String) : Bool :=
  substrOf "public domain" (pyLower lic) || substrOf "cc0" (pyLower lic)

/-- The `for page_id, page in pages.items()` body of
`fetch_images_from_category` (app.py line 37-59): per page, read
`imageinfo` (skip when empty), read `extmetadata` (raising — `.error ()` —
when absent), apply the license and dimension predicate, append the
accepted record, count it, and break out of the loop once the limit is
reached. -/
def process_pages (limit minRes : Nat) :
    List GenPage → List AcceptedImage → Nat → Except Unit (List AcceptedImage × Nat)
  | [], images, totalFetched => .ok (images, totalFetched)
  | p :: ps, images, totalFetched =>
    match p.imageinfo with
    | [] => process_pages limit minRes ps images totalFetched
    | ii :: _ =>
      match ii.extmetadata with
      | none => .error ()
      | some md =>
        let lic := md.licenseShortName.getD ""
        let w := ii.width.getD 0
        let h := ii.height.getD 0
        if app_license_ok lic && (decide (minRes ≤ w) || decide (minRes ≤ h)) then
          let images' := images ++
            [⟨p.title, ii.url, lic, md.imageDescription.getD "No description available."⟩]
          if limit ≤ totalFetched + 1 then
            .ok (images', totalFetched + 1)
          else
            process_pages limit minRes ps images' (totalFetched + 1)
        else
          process_pages limit minRes ps images totalFetched

/-- The `while total_fetched < limit` loop of `fetch_images_from_category`
(app.py line 17-65).  State: fuel, accumulated `images`, `total_fetched`,
number of listing calls made.  Returns the function result and the call
count; `Except.error ()` models an exception (`response.json()` decode
failure, or the `extmetadata` `KeyError`) propagating out. -/
def fetch_images_loop (limit minRes : Nat) (responses : Nat → GenResponse) :
    Nat → List AcceptedImage → Nat → Nat →
      Option (Except Unit (List AcceptedImage) × Nat)
  | 0, images, totalFetched, calls =>
    if totalFetched < limit then none
    else some (.ok images, calls)
  | fuel + 1, images, totalFetched, calls =>
    if totalFetched < limit then
      match responses calls with
      | .malformed => some (.error (), calls + 1)
      | .noQuery none => some (.ok images, calls + 1)
      | .noQuery (some _) =>
        fetch_images_loop limit minRes responses fuel images totalFetched (calls + 1)
      | .pages ps continueTok =>
        match process_pages limit minRes ps images totalFetched, continueTok with
        | .error _, _ => some (.error (), calls + 1)
        | .ok (images', _), none => some (.ok images', calls + 1)
        | .ok (images', totalFetched'), some _ =>
          fetch_images_loop limit minRes responses fuel images' totalFetched' (calls + 1)
    else
      some (.ok images, calls)

/-- `fetch_images_from_category` of app.py: the loop from the empty state. -/
def fetch_images_from_category (limit minRes : Nat) (responses : Nat → GenResponse)
    (fuel : Nat) : Option (Except Unit (List AcceptedImage) × Nat) :=
  fetch_images_loop limit minRes responses fuel [] 0 0

/-! ### src/app.py: `save_standardized_image` -/

/-- Outcome of the plain `requests.get(image["url"])` in
`save_standardized_image` (no `raise_for_status` is called): either a
response with a status code and body, or a raised transport failure. -/
inductive HttpResponse where
  | response (status : Nat) (content : String)
  | transportFailure
deriving DecidableEq

/-- Result of `save_standardized_image` for one item: the .png saved, or
one of the two `except` handlers ran. -/
inductive SaveOutcome where
  | saved (fileName : String)
  | failed
deriving DecidableEq

/-- app.py line 127: `image["title"].replace("File:", "").replace(" ", "_").rsplit(".", 1)[0]`. -/
def standardized_filename (title : String) : String :=
  dropAfterLastDot ((title.replace "File:" "").replace " " "_")

/-- `save_standardized_image` of app.py.  `http` is the content-fetch
oracle; `decodable` tells whether `PIL.Image.open` succeeds on a body
(a 404 HTML body is not a decodable image).  A transport failure raises a
`RequestException` caught by `except Exception`; an undecodable body
raises `UnidentifiedImageError`, also caught.  Either handler yields a
failed outcome and the caller's loop continues. -/
def save_standardized_image (http : String → HttpResponse) (decodable : String → Bool)
    (image : AcceptedImage) : SaveOutcome :=
  match http image.url with
  | .transportFailure => .failed
  | .response _ content =>
    if decodable content then
      .saved ("output/" ++ standardized_filename image.title ++ ".png")
    else
      .failed

/-- The `for image in images` loop of app.py `main`, with `--save`: one
`save_standardized_image` call per accepted item, continuing regardless
of each outcome. -/
def save_all (http : String → HttpResponse) (decodable : String → Bool)
    (images : List AcceptedImage) : List SaveOutcome :=
  images.map (save_standardized_image http decodable)

/-- The generator-listing request of `fetch_images_from_category`
(app.py line 18-32); no headers and no timeout are passed. -/
def app_list_request (category : String) (limit totalFetched : Nat)
    (continueTok : Option String) : HttpRequest :=
  { url := WIKI_API_URL
    params :=
      [("action", "query"), ("generator", "categorymembers"),
       ("gcmtitle", "Category:" ++ category), ("gcmtype", "file"),
       ("prop", "imageinfo"), ("iiprop", "url|extmetadata|size"),
       ("format", "json"), ("gcmlimit", toString (min 50 (limit - totalFetched)))] ++
      (match continueTok with
       | none => []
       | some t => [("gcmcontinue", t)])
    headers := []
    timeoutSeconds := none
    allowRedirects := true }

/-- The content request of `save_standardized_image` (app.py line 133). -/
def app_content_request (imageUrl : String) : HttpRequest :=
  { url := imageUrl
    params := []
    headers := []
    timeoutSeconds := none
    allowRedirects := true }

/-! ### src/app.py: `get_background_color`, `resize_and_pad_image` -/

/-- The three values of the `--bg-color` argument (argparse `choices`
restricts the CLI to these; `resize_and_pad_image` raises on anything
else, which is therefore unreachable from the CLI). -/
inductive BgColor where
  | white
  | black
  | transparent
deriving DecidableEq

/-- `get_background_color` of app.py: the fill color and the PIL mode. -/
def get_background_color : BgColor → List Nat × String
  | .white => ([255, 255, 255], "RGB")
  | .black => ([0, 0, 0], "RGB")
  | .transparent => ([0, 0, 0, 0], "RGBA")

/-- A PIL image, abstracted to the data the claims are about: its pixel
dimensions and its mode. -/
structure PILImage where
  width : Nat
  height : Nat
  mode : String
deriving DecidableEq

/-- Model of the external library call `PIL.Image.thumbnail`'s
`round_aspect(number, key)`: `max(min(floor(number), ceil(number), key=key), 1)`,
where Python's two-argument `min` with a key returns the first argument on
a tie.  Exact rational arithmetic stands in for Python floats. -/
def round_aspect (number : ℚ) (key : Nat → ℚ) : Nat :=
  let f := (Int.floor number).toNat
  let c := (Int.ceil number).toNat
  max (if key f ≤ key c then f else c) 1

/-- Model of the external library call `PIL.Image.thumbnail(size)` (used
at app.py line 90), on the dimension level, with exact rational arithmetic
in place of Python floats: an image already fitting in the box is left
unchanged; otherwise the constraining side of the box is kept and the
other side is scaled to preserve the aspect ratio, rounded by
`round_aspect`. -/
def thumbnail (img : PILImage) (size : Nat × Nat) : PILImage :=
  if img.width ≤ size.1 ∧ img.height ≤ size.2 then
    img
  else if (img.width : ℚ) / (img.height : ℚ) ≤ (size.1 : ℚ) / (size.2 : ℚ) then
    { img with
      width := round_aspect ((size.2 : ℚ) * ((img.width : ℚ) / (img.height : ℚ)))
        (fun n => |(img.width : ℚ) / (img.height : ℚ) - (n : ℚ) / (size.2 : ℚ)|),
      height := size.2 }
  else
    { img with
      width := size.1,
      height := round_aspect ((size.1 : ℚ) / ((img.width : ℚ) / (img.height : ℚ)))
        (fun n => if n = 0 then 0
                  else |(img.width : ℚ) / (img.height : ℚ) - (size.1 : ℚ) / (n : ℚ)|) }

/-- Result of `resize_and_pad_image`: the returned background image and
the `paste_position` at which the thumbnailed input was pasted onto it.
Python's `//` is floor division, hence `Int.fdiv`. -/
structure PaddedResult where
  image : PILImage
  pastePosition : Int × Int
deriving DecidableEq

/-- `resize_and_pad_image` of app.py (line 86-104): thumbnail the input
into the target box, create a fresh background image of exactly
`targetSize` in the mode given by `get_background_color`, and paste the
thumbnailed image centered at
`((target_w - w) // 2, (target_h - h) // 2)`. -/
def resize_and_pad_image (img : PILImage) (targetSize : Nat × Nat) (bgColor : BgColor) :
    PaddedResult :=
  let mode := (get_background_color bgColor).2
  let resized := thumbnail img targetSize
  { image := { width := targetSize.1, height := targetSize.2, mode := mode }
    pastePosition :=
      (Int.fdiv ((targetSize.1 : Int) - (resized.width : Int)) 2,
       Int.fdiv ((targetSize.2 : Int) - (resized.height : Int)) 2) }

/-! ### Spec-side definitions (for refinement comparison only) -/

/-- Modelled from the spec's words (§4.3/§4.4), for comparison with the
code's license test: normalize a license label by lower-casing, replacing
whitespace with underscores, and stripping characters that are neither
alphanumeric nor underscore. -/
def normalizeLabel (s : String) : String :=
  ⟨((pyLower s).data.map (fun c => if c.isWhitespace then '_' else c)).filter
      (fun c => c.isAlphanum || c = '_')⟩

/-- Modelled from the spec's words (§4.4), for comparison with the code's
license test: pass iff some allow-list token, itself normalized, is a
substring of the normalized label. -/
def spec_license_test (allowList : List String) (label : String) : Bool :=
  allowList.any (fun t => substrOf (normalizeLabel t) (normalizeLabel label))

/-- Decidable equality for `Except` results, so runs of the embedded
loops can be checked by evaluation. -/
instance exceptDecEq {ε α : Type} [DecidableEq ε] [DecidableEq α] :
    DecidableEq (Except ε α) := fun a b =>
  match a, b with
  | .error e, .error e' =>
    match decEq e e' with
    | isTrue h => isTrue (by rw [h])
    | isFalse h => isFalse (fun hh => by cases hh; exact h rfl)
  | .error _, .ok _ => isFalse (fun hh => by cases hh)
  | .ok _, .error _ => isFalse (fun hh => by cases hh)
  | .ok x, .ok y =>
    match decEq x y with
    | isTrue h => isTrue (by rw [h])
    | isFalse h => isFalse (fun hh => by cases hh; exact h rfl)

/-- The five accepted items of the C2 scenario. -/
def fiveItems : List (String × String) :=
  [("u1", "File:1.png"), ("u2", "File:2.png"), ("u3", "File:3.png"),
   ("u4", "File:4.png"), ("u5", "File:5.png")]

/-- A content-fetch oracle that answers HTTP 404 for the third item's URL
and succeeds on the others. -/
def fetch404 : String → FetchOutcome :=
  fun u => if u = "u3" then .httpError 404 else .success "imagebytes"

/-! ### Helper lemmas -/

/-- Every list a successful `get_images_loop` returns is some list
truncated with `take limit` (every `.ok` exit point of the loop applies
`[:MAX_IMAGES]`). -/
theorem get_images_loop_ok_shape (limit : Nat) (pages : Nat → ListResponse) :
    ∀ (fuel : Nat) (images : List Member) (calls : Nat) (l : List Member) (c : Nat),
      get_images_loop limit pages fuel images calls = some (.ok l, c) →
      ∃ xs : List Member, l = xs.take limit := by
  intro fuel
  induction fuel with
  | zero =>
    intro images calls l c h
    rw [get_images_loop] at h
    by_cases hg : images.length < limit
    · rw [if_pos hg] at h
      exact absurd h (by simp)
    · rw [if_neg hg] at h
      simp only [Option.some.injEq, Prod.mk.injEq, Except.ok.injEq] at h
      exact ⟨images, h.1.symm⟩
  | succ fuel ih =>
    intro images calls l c h
    rw [get_images_loop] at h
    by_cases hg : images.length < limit
    · rw [if_pos hg] at h
      cases hresp : pages calls with
      | malformed =>
        rw [hresp] at h
        exact absurd h (by simp)
      | noQuery =>
        rw [hresp] at h
        simp only [Option.some.injEq, Prod.mk.injEq, Except.ok.injEq] at h
        exact ⟨images, h.1.symm⟩
      | page members cmcontinue =>
        rw [hresp] at h
        cases cmcontinue with
        | none =>
          simp only [Option.some.injEq, Prod.mk.injEq, Except.ok.injEq] at h
          exact ⟨images ++ members, h.1.symm⟩
        | some tok =>
          exact ih _ _ _ _ h
    · rw [if_neg hg] at h
      simp only [Option.some.injEq, Prod.mk.injEq, Except.ok.injEq] at h
      exact ⟨images, h.1.symm⟩

/-- The page-processing loop of app.py keeps `len(images) = total_fetched`
and never lets `total_fetched` pass `limit` when entered below it. -/
theorem process_pages_ok (limit minRes : Nat) :
    ∀ (ps : List GenPage) (images : List AcceptedImage) (tf : Nat),
      images.length = tf → tf < limit →
      ∀ (l : List AcceptedImage) (tf' : Nat),
        process_pages limit minRes ps images tf = .ok (l, tf') →
        l.length = tf' ∧ tf' ≤ limit := by
  intro ps
  induction ps with
  | nil =>
    intro images tf hlen hlt l tf' h
    simp only [process_pages, Except.ok.injEq, Prod.mk.injEq] at h
    exact ⟨h.1 ▸ h.2 ▸ hlen, h.2 ▸ Nat.le_of_lt hlt⟩
  | cons p ps ih =>
    intro images tf hlen hlt l tf' h
    simp only [process_pages] at h
    split at h
    · exact ih images tf hlen hlt l tf' h
    · split at h
      · simp at h
      · split at h
        · split at h
          · simp only [Except.ok.injEq, Prod.mk.injEq] at h
            refine ⟨?_, h.2 ▸ hlt⟩
            rw [← h.1, ← h.2, List.length_append, hlen, List.length_singleton]
          · rename_i hnotfull
            exact ih _ (tf + 1) (by simp [hlen]) (by omega) l tf' h
        · exact ih images tf hlen hlt l tf' h

/-- A successful `fetch_images_loop` never returns more than `limit`
accepted items. -/
theorem fetch_images_loop_ok_length (limit minRes : Nat) (responses : Nat → GenResponse) :
    ∀ (fuel : Nat) (images : List AcceptedImage) (tf calls : Nat),
      images.length = tf → tf ≤ limit →
      ∀ (l : List AcceptedImage) (c : Nat),
        fetch_images_loop limit minRes responses fuel images tf calls = some (.ok l, c) →
        l.length ≤ limit := by
  intro fuel
  induction fuel with
  | zero =>
    intro images tf calls hlen hle l c h
    rw [fetch_images_loop] at h
    by_cases hg : tf < limit
    · rw [if_pos hg] at h
      exact absurd h (by simp)
    · rw [if_neg hg] at h
      simp only [Option.some.injEq, Prod.mk.injEq, Except.ok.injEq] at h
      exact h.1 ▸ (hlen ▸ hle)
  | succ fuel ih =>
    intro images tf calls hlen hle l c h
    rw [fetch_images_loop] at h
    by_cases hg : tf < limit
    · rw [if_pos hg] at h
      cases hresp : responses calls with
      | malformed =>
        rw [hresp] at h
        exact absurd h (by simp)
      | noQuery continueTok =>
        rw [hresp] at h
        cases continueTok with
        | none =>
          simp only [Option.some.injEq, Prod.mk.injEq, Except.ok.injEq] at h
          exact h.1 ▸ (hlen ▸ hle)
        | some tok =>
          exact ih images tf (calls + 1) hlen hle l c h
      | pages ps continueTok =>
        rw [hresp] at h
        cases hproc : process_pages limit minRes ps images tf with
        | error e =>
          simp [hproc] at h
        | ok pr =>
          obtain ⟨images', tf'⟩ := pr
          obtain ⟨hlen', hle'⟩ :=
            process_pages_ok limit minRes ps images tf hlen hg images' tf' hproc
          cases continueTok with
          | none =>
            simp only [hproc, Option.some.injEq, Prod.mk.injEq, Except.ok.injEq] at h
            exact h.1 ▸ (hlen' ▸ hle')
          | some tok =>
            simp only [hproc] at h
            exact ih images' tf' (calls + 1) hlen' hle' l c h
    · rw [if_neg hg] at h
      simp only [Option.some.injEq, Prod.mk.injEq, Except.ok.injEq] at h
      exact h.1 ▸ (hlen ▸ hle)

/-! ### C1 -/

/-- C1: for every run and every sequence of remote pages, the collection
of items accepted toward the limit never exceeds it:
`get_images_from_category` returns at most `MAX_IMAGES` items and
`fetch_images_from_category` returns at most `limit` items. -/
theorem c1_item_limit :
    (∀ (pages : Nat → ListResponse) (fuel : Nat) (l : List Member) (calls : Nat),
        get_images_from_category pages fuel = some (.ok l, calls) →
        l.length ≤ MAX_IMAGES) ∧
    (∀ (limit minRes : Nat) (responses : Nat → GenResponse) (fuel : Nat)
        (l : List AcceptedImage) (calls : Nat),
        fetch_images_from_category limit minRes responses fuel = some (.ok l, calls) →
        l.length ≤ limit) := by
  constructor
  · intro pages fuel l calls h
    obtain ⟨xs, rfl⟩ := get_images_loop_ok_shape MAX_IMAGES pages fuel [] 0 l calls h
    rw [List.length_take]
    exact Nat.min_le_left _ _
  · intro limit minRes responses fuel l calls h
    exact fetch_images_loop_ok_length limit minRes responses fuel [] 0 0 rfl
      (Nat.zero_le _) l calls h

/-- Witness for C1 at a concrete input: an immediately exhausted remote. -/
theorem c1_item_limit_witness :
    ([] : List Member).length ≤ MAX_IMAGES ∧ ([] : List AcceptedImage).length ≤ 7 :=
  ⟨c1_item_limit.1 (fun _ => .noQuery) 1 [] 1 rfl,
   c1_item_limit.2 7 0 (fun _ => .noQuery none) 1 [] 1 rfl⟩

/-! ### C2 -/

/-- C2: a content-fetch failure (HTTP error status or transport error) on
one accepted item yields a failed outcome for that item only; the batch
continues and produces one outcome per item; one 404 among five accepted
items yields four downloaded and one failed outcome; the app.py save loop
likewise produces one outcome per item. -/
theorem c2_per_item_failure_isolation :
    (∀ (fetch : String → FetchOutcome) (items : List (String × String)),
        (download_all fetch items).length = items.length) ∧
    (∀ (fetch : String → FetchOutcome) (url title : String),
        download_image fetch url title = .failed ↔
          (fetch url = .transportError ∨ ∃ code, fetch url = .httpError code)) ∧
    ((download_all fetch404 fiveItems).filter
        (fun r => match r with | .failed => true | _ => false)).length = 1 ∧
    ((download_all fetch404 fiveItems).filter
        (fun r => match r with | .downloaded _ => true | _ => false)).length = 4 ∧
    (download_all fetch404 fiveItems).length = 5 ∧
    (∀ (http : String → HttpResponse) (decodable : String → Bool)
        (images : List AcceptedImage),
        (save_all http decodable images).length = images.length) := by
  refine ⟨?_, ?_, by decide, by decide, by decide, ?_⟩
  · intro fetch items
    simp [download_all]
  · intro fetch url title
    cases hf : fetch url <;> simp [download_image, hf]
  · intro http decodable images
    simp [save_all]

/-! ### C5 -/

/-- C5 counterexample: two titles and the spec's example maximum batch
size `B = 50`.  `filter_images` issues one `get_image_info` call per
title — 2 calls, not `ceil(2/50) = 1`: the claimed batching does not
exist in the code. -/
theorem c5_counterexample :
    (filter_images (fun _ => none) [⟨"File:A.png"⟩, ⟨"File:B.png"⟩]).2 ≠ ceilDiv 2 50 := by
  decide

/-- C5 amended: the metadata-enrichment step issues exactly one metadata
call per title — `N` calls for `N` titles (sub-batches of size 1), not
`ceil(N/B)` for a maximum batch size `B`. -/
theorem c5_one_metadata_call_per_title
    (info : String → Option ScrapeImageInfo) :
    ∀ (images : List Member), (filter_images info images).2 = images.length := by
  intro images
  induction images with
  | nil => rfl
  | cons m ms ih =>
    rw [filter_images]
    cases info m.title with
    | none => simpa using ih
    | some i =>
      simp only []
      split <;> simpa using ih

/-! ### C3 -/

/-- C3 counterexample: a first page delivering one member with a
continuation token, then a malformed (non-JSON) body.  The run ends with
the decode exception propagating out of `get_images_from_category`
(`Except.error ()`), after 2 listing calls; no partial item list is
surfaced together with the failure — the collected member is lost. -/
theorem c3_counterexample :
    (get_images_run 10
        (fun k => if k = 0 then ListResponse.page [⟨"File:A.png"⟩] (some "tok")
                  else ListResponse.malformed) 5 = some (.error (), 2)) ∧
    ¬ (∃ (l : List Member) (calls : Nat),
        get_images_run 10
          (fun k => if k = 0 then ListResponse.page [⟨"File:A.png"⟩] (some "tok")
                    else ListResponse.malformed) 5 = some (.ok l, calls)) := by
  refine ⟨rfl, ?_⟩
  rintro ⟨l, calls, h⟩
  rw [show get_images_run 10
        (fun k => if k = 0 then ListResponse.page [⟨"File:A.png"⟩] (some "tok")
                  else ListResponse.malformed) 5 = some (.error (), 2) from rfl] at h
  simp at h

/-- C3 amended: a listing response body that fails JSON decoding makes the
exception propagate past the client boundary (the loop result is
`Except.error ()`, discarding the items collected so far), in both
`get_images_from_category` and `fetch_images_from_category`; only a
well-formed body lacking the expected `query` structure makes
`get_images_from_category` stop and return the partial item list. -/
theorem c3_decode_failure_raises :
    (∀ (limit : Nat) (pages : Nat → ListResponse) (fuel : Nat)
        (images : List Member) (calls : Nat),
        images.length < limit → pages calls = .malformed →
        get_images_loop limit pages (fuel + 1) images calls = some (.error (), calls + 1)) ∧
    (∀ (limit : Nat) (pages : Nat → ListResponse) (fuel : Nat)
        (images : List Member) (calls : Nat),
        images.length < limit → pages calls = .noQuery →
        get_images_loop limit pages (fuel + 1) images calls =
          some (.ok (images.take limit), calls + 1)) ∧
    (∀ (limit minRes : Nat) (responses : Nat → GenResponse) (fuel : Nat)
        (images : List AcceptedImage) (tf calls : Nat),
        tf < limit → responses calls = .malformed →
        fetch_images_loop limit minRes responses (fuel + 1) images tf calls =
          some (.error (), calls + 1)) := by
  refine ⟨?_, ?_, ?_⟩
  · intro limit pages fuel images calls hg hresp
    rw [get_images_loop, if_pos hg, hresp]
  · intro limit pages fuel images calls hg hresp
    rw [get_images_loop, if_pos hg, hresp]
  · intro limit minRes responses fuel images tf calls hg hresp
    rw [fetch_images_loop, if_pos hg, hresp]

/-- Witness for C3 amended at concrete inputs. -/
theorem c3_decode_failure_raises_witness :
    (get_images_loop 3 (fun _ => .malformed) 1 [] 0 = some (.error (), 1)) ∧
    (get_images_loop 3 (fun _ => .noQuery) 1 [⟨"File:A.png"⟩] 1 =
      some (.ok [⟨"File:A.png"⟩], 2)) ∧
    (fetch_images_loop 3 0 (fun _ => .malformed) 1 [] 0 0 = some (.error (), 1)) :=
  ⟨c3_decode_failure_raises.1 3 (fun _ => .malformed) 0 [] 0 (by decide) rfl,
   by
    have := c3_decode_failure_raises.2.1 3 (fun _ => .noQuery) 0 [⟨"File:A.png"⟩] 1
      (by decide) rfl
    simpa using this,
   c3_decode_failure_raises.2.2 3 0 (fun _ => .malformed) 0 [] 0 0 (by decide) rfl⟩

/-! ### C4 -/

/-- C4 counterexample: the concrete listing request issued by
`get_images_from_category` for the configured category carries no timeout
(`requests.get` waits indefinitely by default), contradicting the claim
that every remote call carries a bounded timeout. -/
theorem c4_counterexample :
    (list_page_request CATEGORY_NAME none).timeoutSeconds = none := rfl

/-- C4 amended: none of the five `requests.get` call sites (listing,
metadata lookup and content fetch in scrape.py; listing and content fetch
in app.py) passes a timeout, so no bounded timeout protects any remote
call and termination is not guaranteed by the code. -/
theorem c4_no_request_carries_timeout :
    ∀ (category imageTitle imageUrl appCategory appUrl : String)
      (continueTok appContinueTok : Option String) (limit totalFetched : Nat),
      (list_page_request category continueTok).timeoutSeconds = none ∧
      (image_info_request imageTitle).timeoutSeconds = none ∧
      (download_request imageUrl).timeoutSeconds = none ∧
      (app_list_request appCategory limit totalFetched appContinueTok).timeoutSeconds = none ∧
      (app_content_request appUrl).timeoutSeconds = none := by
  intro category imageTitle imageUrl appCategory appUrl continueTok appContinueTok limit totalFetched
  exact ⟨rfl, rfl, rfl, rfl, rfl⟩

/-! ### C6 -/

/-- Arithmetic step for the call-count bound: if `c` full pages of `P`
items have not yet reached `L`, one more call keeps the total within
`⌈L/P⌉`. -/
theorem ceilDiv_succ_le {P c L : Nat} (hP : 0 < P) (h : c * P < L) :
    c + 1 ≤ ceilDiv L P := by
  rw [ceilDiv, Nat.le_div_iff_mul_le hP, Nat.add_mul, Nat.one_mul]
  omega

/-- When every delivered page carries at least `P` members, the listing
loop of scrape.py makes at most `⌈limit/P⌉` calls in total. -/
theorem get_images_loop_calls_bound (limit P : Nat) (hP : 0 < P)
    (pages : Nat → ListResponse)
    (hpages : ∀ k ms c, pages k = ListResponse.page ms c → P ≤ ms.length) :
    ∀ (fuel : Nat) (images : List Member) (calls : Nat),
      calls * P ≤ images.length → calls ≤ ceilDiv limit P →
      ∀ (r : Except Unit (List Member)) (c' : Nat),
        get_images_loop limit pages fuel images calls = some (r, c') →
        c' ≤ ceilDiv limit P := by
  intro fuel
  induction fuel with
  | zero =>
    intro images calls hinv hcalls r c' h
    rw [get_images_loop] at h
    by_cases hg : images.length < limit
    · rw [if_pos hg] at h
      exact absurd h (by simp)
    · rw [if_neg hg] at h
      simp only [Option.some.injEq, Prod.mk.injEq] at h
      exact h.2 ▸ hcalls
  | succ fuel ih =>
    intro images calls hinv hcalls r c' h
    rw [get_images_loop] at h
    by_cases hg : images.length < limit
    · rw [if_pos hg] at h
      have hstep : calls + 1 ≤ ceilDiv limit P :=
        ceilDiv_succ_le hP (Nat.lt_of_le_of_lt hinv hg)
      cases hresp : pages calls with
      | malformed =>
        rw [hresp] at h
        simp only [Option.some.injEq, Prod.mk.injEq] at h
        exact h.2 ▸ hstep
      | noQuery =>
        rw [hresp] at h
        simp only [Option.some.injEq, Prod.mk.injEq] at h
        exact h.2 ▸ hstep
      | page members cmcontinue =>
        rw [hresp] at h
        cases cmcontinue with
        | none =>
          simp only [Option.some.injEq, Prod.mk.injEq] at h
          exact h.2 ▸ hstep
        | some tok =>
          refine ih (images ++ members) (calls + 1) ?_ hstep r c' h
          rw [List.length_append, Nat.add_mul, Nat.one_mul]
          exact Nat.add_le_add hinv (hpages calls members (some tok) hresp)
    · rw [if_neg hg] at h
      simp only [Option.some.injEq, Prod.mk.injEq] at h
      exact h.2 ▸ hcalls

/-- C6 counterexample: with limit `L = 2` and requested page size
`P = min(50, L) = 2`, a remote that always answers one accepted item per
page with a continuation token makes `fetch_images_from_category` issue 2
listing calls, exceeding `⌈L/P⌉ = 1`: the claimed bound fails for pages
with fewer than `P` items. -/
theorem c6_counterexample :
    ¬ (∀ (limit minRes : Nat) (responses : Nat → GenResponse) (fuel : Nat)
          (l : List AcceptedImage) (calls : Nat),
        fetch_images_from_category limit minRes responses fuel = some (.ok l, calls) →
        calls ≤ ceilDiv limit (min 50 limit)) := by
  intro hclaim
  have h2 := hclaim 2 0
    (fun _ => .pages [⟨"File:A.png", [⟨"u", some 2000, some 2000, some ⟨some "CC0", none⟩⟩]⟩]
      (some "c")) 5
    [⟨"File:A.png", "u", "CC0", "No description available."⟩,
     ⟨"File:A.png", "u", "CC0", "No description available."⟩] 2 (by decide)
  exact absurd h2 (by decide)

/-- C6 amended: the bound holds for full pages — when every page the
remote delivers carries at least `CMLIMIT` members, the listing loop of
`get_images_from_category` (run with any item limit `L`) issues at most
`⌈L/CMLIMIT⌉` listing calls; pages shorter than the requested page size
can push the call count beyond `⌈L/P⌉`. -/
theorem c6_calls_bound_full_pages (limit : Nat) (pages : Nat → ListResponse)
    (hpages : ∀ k ms c, pages k = ListResponse.page ms c → CMLIMIT ≤ ms.length)
    (fuel : Nat) (r : Except Unit (List Member)) (calls : Nat)
    (h : get_images_run limit pages fuel = some (r, calls)) :
    calls ≤ ceilDiv limit CMLIMIT :=
  get_images_loop_calls_bound limit CMLIMIT (by decide) pages hpages fuel [] 0
    (by simp) (Nat.zero_le _) r calls h

/-- Witness for C6 amended at a concrete input: an immediately exhausted
remote (no `page` response at all, so the full-page hypothesis holds
vacuously) with `L = MAX_IMAGES`. -/
theorem c6_calls_bound_full_pages_witness : 1 ≤ ceilDiv MAX_IMAGES CMLIMIT :=
  c6_calls_bound_full_pages MAX_IMAGES (fun _ => .noQuery)
    (fun _ _ _ h => absurd h (by simp)) 1 (.ok []) 1 rfl

/-! ### C7 -/

/-- C7 counterexample: the label `"CC-0"`.  Under the claimed
normalization (lower-case, whitespace→underscore, strip other
punctuation) it normalizes to `"cc0"`, so the allow-list token `"cc0"`
is a substring and the claim demands acceptance; the code only
lower-cases and rejects it — `filter_images` does not download an item
so labelled even at large dimensions. -/
theorem c7_counterexample :
    spec_license_test ["pd", "cc0"] "CC-0" = true ∧
    scrape_license_ok "CC-0" = false ∧
    (filter_images (fun _ => some ⟨some 2000, some 2000, some "CC-0", "u"⟩)
        [⟨"File:A.png"⟩]).1 = [] := by
  refine ⟨by decide, by decide, by decide⟩

/-- C7 amended: the raw license label is only lower-cased (no
whitespace→underscore replacement and no punctuation stripping) and the
test passes iff `"pd"` or `"cc0"` (scrape.py) respectively
`"public domain"` or `"cc0"` (app.py) is a substring of the lower-cased
label; with large dimensions `filter_images` downloads exactly the items
passing that test.  The claim's two examples behave as stated:
`"CC0 1.0 Universal"` is accepted and `"All Rights Reserved"` rejected. -/
theorem c7_license_lowercase_substring :
    (∀ (lic url title : String),
        (filter_images (fun _ => some ⟨some 2000, some 2000, some lic, url⟩)
            [⟨title⟩]).1 =
          if scrape_license_ok lic then [(url, title)] else []) ∧
    (∀ lic : String,
        scrape_license_ok lic =
          (substrOf "pd" (pyLower lic) || substrOf "cc0" (pyLower lic))) ∧
    (∀ lic : String,
        app_license_ok lic =
          (substrOf "public domain" (pyLower lic) || substrOf "cc0" (pyLower lic))) ∧
    scrape_license_ok "CC0 1.0 Universal" = true ∧
    scrape_license_ok "All Rights Reserved" = false ∧
    app_license_ok "CC0 1.0 Universal" = true ∧
    app_license_ok "All Rights Reserved" = false := by
  refine ⟨?_, fun _ => rfl, fun _ => rfl, by decide, by decide, by decide, by decide⟩
  intro lic url title
  cases hl : scrape_license_ok lic <;> simp [filter_images, hl]

/-! ### C8 -/

/-- C8: the dimension test is a disjunction — with configured minimum
`minRes`, a single resolved item passes iff `width ≥ minRes` OR
`height ≥ minRes`; a 2000×10 item passes at `minRes = 1024` while a
10×10 item fails; with the unconfigured default `minRes = 0` every item
passes; scrape.py's hard-coded threshold 1024 behaves the same way. -/
theorem c8_dimension_disjunction :
    (∀ (minRes w h : Nat),
        process_pages 50 minRes
            [⟨"File:A.png", [⟨"u", some w, some h, some ⟨some "cc0", none⟩⟩]⟩] [] 0 =
          if minRes ≤ w ∨ minRes ≤ h then
            .ok ([⟨"File:A.png", "u", "cc0", "No description available."⟩], 1)
          else .ok ([], 0)) ∧
    (∀ (w h : Nat),
        process_pages 50 0
            [⟨"File:A.png", [⟨"u", some w, some h, some ⟨some "cc0", none⟩⟩]⟩] [] 0 =
          .ok ([⟨"File:A.png", "u", "cc0", "No description available."⟩], 1)) ∧
    (process_pages 50 1024
        [⟨"File:A.png", [⟨"u", some 2000, some 10, some ⟨some "cc0", none⟩⟩]⟩] [] 0 =
      .ok ([⟨"File:A.png", "u", "cc0", "No description available."⟩], 1)) ∧
    (process_pages 50 1024
        [⟨"File:A.png", [⟨"u", some 10, some 10, some ⟨some "cc0", none⟩⟩]⟩] [] 0 =
      .ok ([], 0)) ∧
    (∀ (w h : Nat),
        (filter_images (fun _ => some ⟨some w, some h, some "cc0", "u"⟩)
            [⟨"File:A.png"⟩]).1 =
          if 1024 ≤ w ∨ 1024 ≤ h then [("u", "File:A.png")] else []) := by
  have hmain : ∀ (minRes w h : Nat),
      process_pages 50 minRes
          [⟨"File:A.png", [⟨"u", some w, some h, some ⟨some "cc0", none⟩⟩]⟩] [] 0 =
        if minRes ≤ w ∨ minRes ≤ h then
          .ok ([⟨"File:A.png", "u", "cc0", "No description available."⟩], 1)
        else .ok ([], 0) := by
    intro minRes w h
    have hlic : app_license_ok "cc0" = true := by decide
    by_cases hc : minRes ≤ w ∨ minRes ≤ h
    · have hb : (decide (minRes ≤ w) || decide (minRes ≤ h)) = true := by
        rcases hc with hc | hc <;> simp [hc]
      simp [process_pages, hlic, hb, hc]
    · have hb : (decide (minRes ≤ w) || decide (minRes ≤ h)) = false := by
        rcases not_or.mp hc with ⟨h1, h2⟩
        simp [h1, h2]
      simp [process_pages, hlic, hb, hc]
  refine ⟨hmain, ?_, by decide, by decide, ?_⟩
  · intro w h
    rw [hmain 0 w h, if_pos (Or.inl (Nat.zero_le _))]
  · intro w h
    by_cases hc : 1024 ≤ w ∨ 1024 ≤ h
    · have hb : (decide (1024 ≤ w) || decide (1024 ≤ h)) = true := by
        rcases hc with hc | hc <;> simp [hc]
      simp [filter_images, hb, hc, show scrape_license_ok "cc0" = true from by decide]
    · have hb : (decide (1024 ≤ w) || decide (1024 ≤ h)) = false := by
        rcases not_or.mp hc with ⟨h1, h2⟩
        simp [h1, h2]
      simp [filter_images, hb, hc]

/-! ### C9 -/

/-- C9: an item whose metadata lookup yields nothing is never downloaded:
every `(url, title)` pair `filter_images` hands to `download_image` has a
resolved metadata record for its title, and pages whose `imageinfo` list
is empty contribute nothing to `fetch_images_from_category`'s accepted
list or counter. -/
theorem c9_unresolved_items_rejected :
    (∀ (info : String → Option ScrapeImageInfo) (images : List Member)
        (d : String × String),
        d ∈ (filter_images info images).1 → info d.2 ≠ none) ∧
    (∀ (limit minRes : Nat) (ps : List GenPage) (images : List AcceptedImage)
        (tf : Nat),
        (∀ p ∈ ps, p.imageinfo = []) →
        process_pages limit minRes ps images tf = .ok (images, tf)) := by
  constructor
  · intro info images
    induction images with
    | nil => intro d hd; simp [filter_images] at hd
    | cons m ms ih =>
      intro d hd
      rw [filter_images] at hd
      cases hinfo : info m.title with
      | none =>
        rw [hinfo] at hd
        exact ih d hd
      | some i =>
        rw [hinfo] at hd
        simp only [] at hd
        split at hd
        · rcases List.mem_cons.mp hd with hd | hd
          · rw [hd]
            simp [hinfo]
          · exact ih d hd
        · exact ih d hd
  · intro limit minRes ps
    induction ps with
    | nil => intro images tf _; rfl
    | cons p ps ih =>
      intro images tf hps
      rw [process_pages]
      rw [hps p (List.mem_cons_self p ps)]
      exact ih images tf (fun q hq => hps q (List.mem_cons_of_mem p hq))

/-- Witness for C9 at concrete inputs: a downloaded pair's title has
resolved metadata, and an all-unresolved page list is a no-op. -/
theorem c9_unresolved_items_rejected_witness :
    ((fun _ => some ⟨some 2000, some 2000, some "cc0", "u"⟩ :
        String → Option ScrapeImageInfo) "File:A.png" ≠ none) ∧
    process_pages 50 0 [⟨"File:B.png", []⟩] [] 0 = .ok ([], 0) :=
  ⟨c9_unresolved_items_rejected.1 (fun _ => some ⟨some 2000, some 2000, some "cc0", "u"⟩)
      [⟨"File:A.png"⟩] ("u", "File:A.png") (by decide),
   c9_unresolved_items_rejected.2 50 0 [⟨"File:B.png", []⟩] [] 0 (by simp)⟩

/-! ### C10 -/

/-- `round_aspect` never exceeds a positive bound that dominates its
input: both the floor and the ceiling of `q ≤ x` are at most `x`. -/
theorem round_aspect_le (q : ℚ) (key : Nat → ℚ) (x : Nat) (hx : 0 < x)
    (hq : q ≤ (x : ℚ)) : round_aspect q key ≤ x := by
  have hceil : (Int.ceil q).toNat ≤ x :=
    Int.toNat_le.mpr (Int.ceil_le.mpr (by exact_mod_cast hq))
  have hfloor : (Int.floor q).toNat ≤ x :=
    Int.toNat_le.mpr
      (le_trans (Int.floor_le_ceil q) (Int.ceil_le.mpr (by exact_mod_cast hq)))
  simp only [round_aspect]
  refine Nat.max_le.mpr ⟨?_, hx⟩
  split
  · exact hfloor
  · exact hceil

/-- The thumbnailed image fits inside the requested box. -/
theorem thumbnail_fits (img : PILImage) (x y : Nat)
    (hw : 0 < img.width) (hh : 0 < img.height) (hx : 0 < x) (hy : 0 < y) :
    (thumbnail img (x, y)).width ≤ x ∧ (thumbnail img (x, y)).height ≤ y := by
  have hy' : (0 : ℚ) < (y : ℚ) := by exact_mod_cast hy
  have hh' : (0 : ℚ) < (img.height : ℚ) := by exact_mod_cast hh
  have haspect : (0 : ℚ) < (img.width : ℚ) / (img.height : ℚ) := by positivity
  simp only [thumbnail]
  by_cases hfit : img.width ≤ x ∧ img.height ≤ y
  · rw [if_pos hfit]
    exact hfit
  · rw [if_neg hfit]
    by_cases hbr : (img.width : ℚ) / (img.height : ℚ) ≤ (x : ℚ) / (y : ℚ)
    · rw [if_pos hbr]
      have hq : (y : ℚ) * ((img.width : ℚ) / (img.height : ℚ)) ≤ (x : ℚ) :=
        calc (y : ℚ) * ((img.width : ℚ) / (img.height : ℚ))
            ≤ (y : ℚ) * ((x : ℚ) / (y : ℚ)) :=
              mul_le_mul_of_nonneg_left hbr (le_of_lt hy')
          _ = (x : ℚ) := by field_simp
      exact ⟨round_aspect_le ((y : ℚ) * ((img.width : ℚ) / (img.height : ℚ)))
        (fun n => |(img.width : ℚ) / (img.height : ℚ) - (n : ℚ) / (y : ℚ)|) x hx hq,
        le_refl y⟩
    · rw [if_neg hbr]
      have hlt : (x : ℚ) < (img.width : ℚ) / (img.height : ℚ) * (y : ℚ) :=
        (div_lt_iff₀ hy').mp (not_le.mp hbr)
      have hq : (x : ℚ) / ((img.width : ℚ) / (img.height : ℚ)) ≤ (y : ℚ) := by
        rw [div_le_iff₀ haspect, mul_comm]
        exact le_of_lt hlt
      exact ⟨le_refl x,
        round_aspect_le ((x : ℚ) / ((img.width : ℚ) / (img.height : ℚ)))
          (fun n => if n = 0 then 0
                    else |(img.width : ℚ) / (img.height : ℚ) - (x : ℚ) / (n : ℚ)|)
          y hy hq⟩

/-- C10: for every input image of positive dimensions and every supported
background color, `resize_and_pad_image` returns an image of exactly the
target size 1024×1024 in the background's mode; the thumbnailed input
fits inside the target and is pasted at the centering position
`((1024 - w′) // 2, (1024 - h′) // 2)`, both coordinates non-negative. -/
theorem c10_resize_and_pad_dims (w h : Nat) (mode : String) (bg : BgColor)
    (hw : 0 < w) (hh : 0 < h) :
    (resize_and_pad_image ⟨w, h, mode⟩ (1024, 1024) bg).image.width = 1024 ∧
    (resize_and_pad_image ⟨w, h, mode⟩ (1024, 1024) bg).image.height = 1024 ∧
    (resize_and_pad_image ⟨w, h, mode⟩ (1024, 1024) bg).image.mode =
      (get_background_color bg).2 ∧
    (thumbnail ⟨w, h, mode⟩ (1024, 1024)).width ≤ 1024 ∧
    (thumbnail ⟨w, h, mode⟩ (1024, 1024)).height ≤ 1024 ∧
    (resize_and_pad_image ⟨w, h, mode⟩ (1024, 1024) bg).pastePosition =
      (Int.fdiv (1024 - ((thumbnail ⟨w, h, mode⟩ (1024, 1024)).width : Int)) 2,
       Int.fdiv (1024 - ((thumbnail ⟨w, h, mode⟩ (1024, 1024)).height : Int)) 2) ∧
    0 ≤ (resize_and_pad_image ⟨w, h, mode⟩ (1024, 1024) bg).pastePosition.1 ∧
    0 ≤ (resize_and_pad_image ⟨w, h, mode⟩ (1024, 1024) bg).pastePosition.2 := by
  obtain ⟨hfw, hfh⟩ :=
    thumbnail_fits ⟨w, h, mode⟩ 1024 1024 hw hh (by decide) (by decide)
  refine ⟨rfl, rfl, rfl, hfw, hfh, rfl, ?_, ?_⟩
  · apply Int.fdiv_nonneg _ (by decide)
    have : ((thumbnail ⟨w, h, mode⟩ (1024, 1024)).width : Int) ≤ 1024 := by
      exact_mod_cast hfw
    omega
  · apply Int.fdiv_nonneg _ (by decide)
    have : ((thumbnail ⟨w, h, mode⟩ (1024, 1024)).height : Int) ≤ 1024 := by
      exact_mod_cast hfh
    omega

/-- Witness for C10 at a concrete input: a 2000×10 image on a white
background is padded to 1024×1024 with the 1024×5 thumbnail pasted at
(0, 509). -/
theorem c10_resize_and_pad_dims_witness :
    (resize_and_pad_image ⟨2000, 10, "RGB"⟩ (1024, 1024) .white).image.width = 1024 ∧
    (resize_and_pad_image ⟨2000, 10, "RGB"⟩ (1024, 1024) .white).image.height = 1024 ∧
    (resize_and_pad_image ⟨2000, 10, "RGB"⟩ (1024, 1024) .white).image.mode =
      (get_background_color .white).2 ∧
    (thumbnail ⟨2000, 10, "RGB"⟩ (1024, 1024)).width ≤ 1024 ∧
    (thumbnail ⟨2000, 10, "RGB"⟩ (1024, 1024)).height ≤ 1024 ∧
    (resize_and_pad_image ⟨2000, 10, "RGB"⟩ (1024, 1024) .white).pastePosition =
      (Int.fdiv (1024 - ((thumbnail ⟨2000, 10, "RGB"⟩ (1024, 1024)).width : Int)) 2,
       Int.fdiv (1024 - ((thumbnail ⟨2000, 10, "RGB"⟩ (1024, 1024)).height : Int)) 2) ∧
    0 ≤ (resize_and_pad_image ⟨2000, 10, "RGB"⟩ (1024, 1024) .white).pastePosition.1 ∧
    0 ≤ (resize_and_pad_image ⟨2000, 10, "RGB"⟩ (1024, 1024) .white).pastePosition.2 :=
  c10_resize_and_pad_dims 2000 10 "RGB" .white (by decide) (by decide)

end Scraper
